import Mathlib

/-!
Verification development for the KILLER_ROBOT repository.

The Python sources are shallowly embedded:
* `cloud_server.py` — relay hub: `CloudServer` namespace (connection manager,
  message ingestion, query endpoints, background detection scheduler);
* `pidog_person_tracker.py` — standalone pursuit tracker: `Tracker` namespace;
* `pidog_client.py` — robot-side client: `ClientPy` namespace.

Python dictionaries are modelled as association lists over `String` keys;
Python floats as rationals; wall-clock time is passed explicitly; external
collaborators (detector, camera decode, actuator, random draws) are explicit
inputs of the functions that consult them.
-/

/-- Python `d.get(k)` / `d[k]`: the value stored for key `k`, if present. -/
def dictGet {α : Type} (m : List (String × α)) (k : String) : Option α :=
  match m with
  | [] => none
  | p :: rest => if p.1 = k then some p.2 else dictGet rest k

/-- Python `d[k] = v`: overwrite-or-insert for key `k`. -/
def dictSet {α : Type} (m : List (String × α)) (k : String) (v : α) :
    List (String × α) :=
  (k, v) :: m.filter (fun p => p.1 ≠ k)

/-- Python `del d[k]` (guarded by `if k in d`): drop every binding of `k`. -/
def dictDel {α : Type} (m : List (String × α)) (k : String) : List (String × α) :=
  m.filter (fun p => p.1 ≠ k)

theorem dictGet_dictSet {α : Type} (m : List (String × α)) (k : String) (v : α) :
    dictGet (dictSet m k v) k = some v := by
  simp [dictGet, dictSet]

theorem dictGet_dictDel {α : Type} (m : List (String × α)) (k : String) :
    dictGet (dictDel m k) k = none := by
  induction m with
  | nil => simp [dictGet, dictDel]
  | cons p rest ih =>
    by_cases h : p.1 = k
    · simpa [dictDel, h] using ih
    · simpa [dictDel, dictGet, h] using ih

namespace CloudServer

/-- `bytes.fromhex` digit value. -/
def hexVal (c : Char) : Option ℕ :=
  if '0' ≤ c ∧ c ≤ '9' then some (c.toNat - '0'.toNat)
  else if 'a' ≤ c ∧ c ≤ 'f' then some (c.toNat - 'a'.toNat + 10)
  else if 'A' ≤ c ∧ c ≤ 'F' then some (c.toNat - 'A'.toNat + 10)
  else none

/-- `bytes.fromhex` on a character list: pairs of hex digits become bytes;
an odd length or a non-hex character raises (here: `none`). -/
def bytesFromHexAux : List Char → Option (List ℕ)
  | [] => some []
  | [_] => none
  | a :: b :: rest =>
    match hexVal a, hexVal b, bytesFromHexAux rest with
    | some x, some y, some r => some ((16 * x + y) :: r)
    | _, _, _ => none

/-- `bytes.fromhex(s)`; applying it to `None` raises a `TypeError` (here: `none`). -/
def bytesFromHex : Option String → Option (List ℕ)
  | none => none
  | some s => bytesFromHexAux s.data

/-- One value of `latest_frames`: the dict stored by the `camera_frame` branch of
`websocket_endpoint` (`{"frame_data": message.get("frame_data"), "timestamp": ...}`). -/
structure FrameEntry where
  frame_data : Option String
  timestamp : ℚ
  deriving DecidableEq

/-- One detection as built by `detect_persons` / the cloud API. -/
structure BBox where
  x1 : ℤ
  y1 : ℤ
  x2 : ℤ
  y2 : ℤ
  width : ℤ
  height : ℤ
  center_x : ℤ
  center_y : ℤ
  deriving DecidableEq

structure Detection where
  class_id : ℤ
  class_name : String
  confidence : ℚ
  bbox : BBox
  deriving DecidableEq

/-- What `detect_persons` returns (before the scheduler stamps a timestamp). -/
structure DetectorOutput where
  success : Bool
  detections : List Detection
  inference_time : ℚ
  image_width : ℕ
  image_height : ℕ
  deriving DecidableEq

/-- One value of `latest_detections`: a `detect_persons` result with the
`timestamp` field added by `run_detection_on_client_frames`. -/
structure DetectionResult where
  success : Bool
  detections : List Detection
  inference_time : ℚ
  image_width : ℕ
  image_height : ℕ
  timestamp : ℚ
  deriving DecidableEq

/-- A client's WebSocket as the hub sees it: `send_json` either succeeds or
raises (`sendOk = false`). -/
structure Channel where
  sendOk : Bool
  deriving DecidableEq

/-- One value of `client_status["sensors"]`. -/
structure SensorReading where
  value : Option ℚ
  timestamp : ℚ
  deriving DecidableEq

/-- One value of `client_status`. The `status_response` branch replaces the whole
dict with the listed keys; the `sensor_data` branch merges into `sensors`. -/
structure StatusEntry where
  has_camera : Bool
  has_imu : Bool
  has_rgb : Bool
  has_distance_sensor : Bool
  ip_address : Option String
  last_update : ℚ
  sensors : List (String × SensorReading)
  deriving DecidableEq

/-- The fresh `{}` created by the `sensor_data` branch when the client had no
status entry yet. -/
def emptyStatus : StatusEntry :=
  { has_camera := false, has_imu := false, has_rgb := false
    has_distance_sensor := false, ip_address := none, last_update := 0
    sensors := [] }

/-- An inbound JSON message as read by `websocket_endpoint`.

Top-level keys the server consults are `type`, `frame_data`, `timestamp`,
`sensor`, `value`, `has_camera`, `has_imu`, `has_rgb`, `has_distance_sensor`,
`ip_address`; a missing key (`message.get(...)`) is `none`.  The repository's
own senders (`pidog_client.py`, `test_websocket.py`) nest the frame payload
under a `data` object instead; those nested keys are carried as `data_frame`,
`data_frame_id`, `data_timestamp` so that the mismatch is expressible. -/
structure WireMessage where
  type : String
  frame_data : Option String
  timestamp : Option ℚ
  sensor : Option String
  value : Option ℚ
  has_camera : Option Bool
  has_imu : Option Bool
  has_rgb : Option Bool
  has_distance_sensor : Option Bool
  ip_address : Option String
  data_frame : Option String
  data_frame_id : Option ℕ
  data_timestamp : Option ℚ
  deriving DecidableEq

/-- A message with every optional key absent. -/
def blankMsg (ty : String) : WireMessage :=
  { type := ty, frame_data := none, timestamp := none, sensor := none
    value := none, has_camera := none, has_imu := none, has_rgb := none
    has_distance_sensor := none, ip_address := none, data_frame := none
    data_frame_id := none, data_timestamp := none }

/-- The module-level mutable state of `cloud_server.py`: the global dicts
`clients`, `latest_frames`, `latest_detections`, `client_status` and the
connection manager's `active_connections`. -/
structure ServerState where
  active_connections : List (String × Channel)
  clients : List (String × ℚ)
  latest_frames : List (String × FrameEntry)
  latest_detections : List (String × DetectionResult)
  client_status : List (String × StatusEntry)
  deriving DecidableEq

def emptyServer : ServerState :=
  { active_connections := [], clients := [], latest_frames := []
    latest_detections := [], client_status := [] }

/-- `ConnectionManager.connect`: register the socket and record
`clients[client_id] = {"connected_at": now}`. -/
def connect (st : ServerState) (cid : String) (ch : Channel) (now : ℚ) : ServerState :=
  { st with active_connections := dictSet st.active_connections cid ch
            clients := dictSet st.clients cid now }

/-- `ConnectionManager.disconnect`: drop the socket and every per-session entry. -/
def disconnect (st : ServerState) (cid : String) : ServerState :=
  { active_connections := dictDel st.active_connections cid
    clients := dictDel st.clients cid
    latest_frames := dictDel st.latest_frames cid
    latest_detections := dictDel st.latest_detections cid
    client_status := dictDel st.client_status cid }

/-- `ConnectionManager.send_message`: `False` when the session is absent or
`send_json` raises, `True` when the write succeeds. -/
def send_message (st : ServerState) (cid : String) : Bool :=
  match dictGet st.active_connections cid with
  | some ch => if ch.sendOk then true else false
  | none => false

/-- `ConnectionManager.broadcast`: call `send_message` for every connected id,
recording each outcome (the Python loop ignores the returned bools but
completes the iteration regardless of per-client failures). -/
def broadcast (st : ServerState) : List (String × Bool) :=
  st.active_connections.map (fun p => (p.1, send_message st p.1))

/-- One message-dispatch iteration of `websocket_endpoint`'s receive loop. -/
def handleMessage (st : ServerState) (cid : String) (msg : WireMessage) (now : ℚ) :
    ServerState :=
  if msg.type = "camera_frame" then
    let fe : FrameEntry :=
      { frame_data := msg.frame_data, timestamp := msg.timestamp.getD now }
    { st with latest_frames := dictSet st.latest_frames cid fe }
  else if msg.type = "sensor_data" then
    let entry := (dictGet st.client_status cid).getD emptyStatus
    let entry' :=
      match msg.sensor with
      | some sname =>
        if sname = "" then entry
        else
          let r : SensorReading :=
            { value := msg.value, timestamp := msg.timestamp.getD now }
          { entry with sensors := dictSet entry.sensors sname r }
      | none => entry
    { st with client_status := dictSet st.client_status cid entry' }
  else if msg.type = "status_response" then
    let entry : StatusEntry :=
      { has_camera := msg.has_camera.getD false
        has_imu := msg.has_imu.getD false
        has_rgb := msg.has_rgb.getD false
        has_distance_sensor := msg.has_distance_sensor.getD false
        ip_address := msg.ip_address
        last_update := now
        sensors := [] }
    { st with client_status := dictSet st.client_status cid entry }
  else
    st

/-- Result of `GET /client/{id}/latest_frame`: 404 when the client has no frame
entry, the decoded bytes on success, 500 when `bytes.fromhex` raises. -/
inductive FrameQueryResult where
  | notFound
  | ok (bytes : List ℕ)
  | err
  deriving DecidableEq

def get_latest_frame (st : ServerState) (cid : String) : FrameQueryResult :=
  match dictGet st.latest_frames cid with
  | none => .notFound
  | some fe =>
    match bytesFromHex fe.frame_data with
    | some bs => .ok bs
    | none => .err

/-- Result of `GET /client/{id}/latest_detection`. -/
inductive DetectionQueryResult where
  | notFound
  | ok (d : DetectionResult)
  deriving DecidableEq

def get_latest_detection (st : ServerState) (cid : String) : DetectionQueryResult :=
  match dictGet st.latest_detections cid with
  | none => .notFound
  | some d => .ok d

def DETECTION_INTERVAL : ℚ := 1/2

/-- The per-client body of one `run_detection_on_client_frames` tick.

Inputs standing for external effects: `now` is the `time.time()` sample taken
at the gating check, `decodes` is whether `cv2.imdecode` yields a frame, and
`det` is what `detect_persons` would return on it.  Output: whether a
detection ran this tick, and the client's `latest_detections` value afterwards.
A missing previous detection yields `last_detection_time = 0`
(`.get(client_id, {}).get("timestamp", 0)`); a `bytes.fromhex` failure is
caught by the surrounding `except`, leaving the previous entry in place. -/
def schedulerStep (now : ℚ) (frame : Option FrameEntry) (decodes : Bool)
    (det : DetectorOutput) (prev : Option DetectionResult) :
    Bool × Option DetectionResult :=
  match frame with
  | none => (false, prev)
  | some fe =>
    let lastT : ℚ := match prev with | some d => d.timestamp | none => 0
    if DETECTION_INTERVAL ≤ now - lastT then
      match bytesFromHex fe.frame_data with
      | none => (false, prev)
      | some _ =>
        if decodes then
          (true, some { success := det.success, detections := det.detections
                        inference_time := det.inference_time
                        image_width := det.image_width
                        image_height := det.image_height
                        timestamp := now })
        else (false, prev)
    else (false, prev)

end CloudServer

/-- An actuator/hardware call made by the tracker or client control code. -/
inductive Act where
  | headMove (yaw : ℚ)
  | doAction (name : String)
  | speakSound (sound : String)
  | rgbSet (mode : String) (color : String)
  deriving DecidableEq

namespace Tracker

def BARK_DISTANCE : ℚ := 70
def PURSUE_DISTANCE : ℚ := 200
def MAX_PURSUIT_DISTANCE : ℚ := 400
def EXPLOSION_DISTANCE : ℚ := 20
def FPS_TARGET : ℚ := 5
def DETECTION_PERSISTENCE : ℕ := 10

/-- `round(x, 2)`: two-decimal rounding (ties round away from the shorter
direction exactly as for the inputs exercised here, which are never ties). -/
def round2 (x : ℚ) : ℚ := (round (100 * x) : ℤ) / 100

/-- The `readings` list accumulated by the attempt loop of
`get_reliable_distance` in `pidog_person_tracker.py`: a value is appended iff
`value > valid_range[0] and value < valid_range[1]`; a `None` reading or a
raised exception (`none` here) appends nothing. -/
def keepValid (lo : ℚ) (hi : ℚ) : List (Option ℚ) → List ℚ
  | [] => []
  | v? :: rest =>
    match v? with
    | some v =>
      if lo < v ∧ v < hi then v :: keepValid lo hi rest else keepValid lo hi rest
    | none => keepValid lo hi rest

/-- `get_reliable_distance` of `pidog_person_tracker.py`.  The sensor is an
explicit stream: each of the `max_attempts` iterations consumes one pending
`read_distance_sensor()` outcome.  A nonempty keep-list yields its
two-decimal-rounded mean, else the cycle answers `None`. -/
def get_reliable_distance (sensorReads : List (Option ℚ)) (max_attempts : ℕ)
    (lo : ℚ) (hi : ℚ) : Option ℚ :=
  if (keepValid lo hi (sensorReads.take max_attempts)).isEmpty then none
  else
    some (round2 ((keepValid lo hi (sensorReads.take max_attempts)).sum /
      ((keepValid lo hi (sensorReads.take max_attempts)).length : ℚ)))

/-- →area of one detection: `bbox["width"] * bbox["height"]`. -/
def detArea (d : CloudServer.Detection) : ℤ := d.bbox.width * d.bbox.height

/-- The selection loop of `process_detection_results`: `largest_area = 0;
for detection in detections: if area > largest_area: update`. -/
def selBest : List CloudServer.Detection → ℤ → Option CloudServer.Detection →
    Option CloudServer.Detection
  | [], _, best => best
  | d :: rest, bestArea, best =>
    if detArea d > bestArea then selBest rest (detArea d) (some d)
    else selBest rest bestArea best

def selectLargest (dets : List CloudServer.Detection) :
    Option CloudServer.Detection :=
  selBest dets 0 none

/-- The tracker globals mutated by `process_detection_results`. -/
structure TrackVars where
  current_detections : List CloudServer.Detection
  largest_person_bbox : Option (ℤ × ℤ × ℤ × ℤ)
  last_detection_confidence : ℚ
  frames_since_last_detection : ℕ
  deriving DecidableEq

def initVars : TrackVars :=
  { current_detections := [], largest_person_bbox := none
    last_detection_confidence := 0, frames_since_last_detection := 0 }

/-- A detection-service response as consumed by `process_detection_results`;
`none` stands for Python `None` (cloud/local detector failed outright). -/
structure DetResults where
  success : Bool
  detections : List CloudServer.Detection
  deriving DecidableEq

/-- `process_detection_results(results, current_frame)`. -/
def process_detection_results (results : Option DetResults) (v : TrackVars) :
    TrackVars :=
  match results with
  | none => { v with frames_since_last_detection := v.frames_since_last_detection + 1 }
  | some r =>
    if !r.success then
      { v with frames_since_last_detection := v.frames_since_last_detection + 1 }
    else if r.detections.isEmpty then
      let f := v.frames_since_last_detection + 1
      { v with current_detections := []
               frames_since_last_detection := f
               largest_person_bbox :=
                 if f > DETECTION_PERSISTENCE then none else v.largest_person_bbox }
    else
      match selectLargest r.detections with
      | some d =>
        { current_detections := r.detections
          largest_person_bbox := some (d.bbox.x1, d.bbox.y1, d.bbox.x2, d.bbox.y2)
          last_detection_confidence := d.confidence
          frames_since_last_detection := 0 }
      | none => { v with current_detections := r.detections }

/-- The auto-mode action slice of the tracker main loop, entered when
`largest_person_bbox` is present and `auto_mode` holds: head tracking toward
the box centre, then — when a distance reading is available and the movement
gate `current_time - last_movement_time > 1.5` passes — the pursuit branch
`15 < d < PURSUE_DISTANCE` with its turn/forward choice and the bark when
`d < BARK_DISTANCE`.  Returns the actuator calls issued and the new
`last_movement_time`. -/
def autoStep (now : ℚ) (lastMove : ℚ) (hasImu : Bool) (centerX : ℚ)
    (frameWidth : ℚ) (dist : Option ℚ) : List Act × ℚ :=
  let headYaw : ℚ := centerX / frameWidth * 120 - 60
  let headCmds : List Act := if hasImu then [Act.headMove headYaw] else []
  match dist with
  | none => (headCmds, lastMove)
  | some d =>
    if now - lastMove > 3/2 then
      if d < PURSUE_DISTANCE ∧ d > 15 then
        let moveCmd : List Act :=
          if |headYaw| > 20 then
            if headYaw > 0 then [Act.doAction "turn_left"]
            else [Act.doAction "turn_right"]
          else [Act.doAction "forward"]
        let barkCmd : List Act :=
          if d < BARK_DISTANCE then [Act.speakSound "bark"] else []
        (headCmds ++ moveCmd ++ barkCmd, now)
      else (headCmds, now)
    else (headCmds, lastMove)

/-- Bark-call count over `n` loop ticks with a continuous target at distance 10,
head centred, ticks `1 / FPS_TARGET` seconds apart, `last_movement_time`
threaded through. -/
def runBarksAtTen : ℕ → ℚ → ℚ → ℕ
  | 0, _, _ => 0
  | n + 1, now, lastMove =>
    let step := autoStep now lastMove true 320 640 (some 10)
    (if Act.speakSound "bark" ∈ step.1 then 1 else 0) +
      runBarksAtTen n (now + 1 / FPS_TARGET) step.2

def barkCountAtTen (n : ℕ) : ℕ := runBarksAtTen n 0 0

end Tracker

namespace ClientPy

def EXPLOSION_DISTANCE : ℚ := 20

/-- The `readings` list accumulated by `get_reliable_distance` in
`pidog_client.py`: a value is appended iff
`value >= valid_range[0] and value < valid_range[1]` — unlike the tracker
variant, the lower bound is inclusive, so a zero reading is kept. -/
def keepValidGe (lo : ℚ) (hi : ℚ) : List (Option ℚ) → List ℚ
  | [] => []
  | v? :: rest =>
    match v? with
    | some v =>
      if lo ≤ v ∧ v < hi then v :: keepValidGe lo hi rest
      else keepValidGe lo hi rest
    | none => keepValidGe lo hi rest

/-- `get_reliable_distance` of `pidog_client.py`.  Differs from the tracker
variant: it bails out when no distance sensor is configured, and its filter
accepts zero. -/
def get_reliable_distance (hasSensor : Bool) (sensorReads : List (Option ℚ))
    (max_attempts : ℕ) (lo : ℚ) (hi : ℚ) : Option ℚ :=
  if !hasSensor then none
  else if (keepValidGe lo hi (sensorReads.take max_attempts)).isEmpty then none
  else
    some (Tracker.round2
      ((keepValidGe lo hi (sensorReads.take max_attempts)).sum /
        ((keepValidGe lo hi (sensorReads.take max_attempts)).length : ℚ)))

/-- The auto-mode reaction of `distance_sensor_thread` to one valid reading
`d`: below 20 cm flash red and bark; below 70 cm bark with 20 % probability
(`randBelow02` = the outcome of `random.random() < 0.2`). -/
def distanceReact (autoMode : Bool) (hasImu : Bool) (hasRgb : Bool)
    (hasSpeak : Bool) (randBelow02 : Bool) (d : ℚ) : List Act :=
  if autoMode ∧ hasImu then
    if d < 20 then
      (if hasRgb then [Act.rgbSet "boom" "red"] else []) ++
        (if hasSpeak then [Act.speakSound "bark"] else [])
    else if d < 70 then
      if hasSpeak ∧ randBelow02 then [Act.speakSound "bark"] else []
    else []
  else []

/-- Hardware/environment flags consulted by `handle_control_action`, plus
whether each hardware call would raise. -/
structure ClientHW where
  dogPresent : Bool
  hasImu : Bool
  hasRgb : Bool
  hasSpeak : Bool
  doActionFails : Bool
  speakFails : Bool
  rgbFails : Bool
  deriving DecidableEq

def movementActions : List String :=
  ["forward", "backward", "turn_left", "turn_right", "stand", "sit"]

/-- `handle_control_action(action)`: returns the Python result (`True`/`False`)
together with the hardware calls attempted along the way.  Mirrors the source
order: missing `my_dog`, then the IMU guard for movement actions, then the
auto-mode guard allowing only `bark` and `aggressive_mode`, then the per-action
bodies (exceptions inside the big `try` are caught and yield `False` after the
offending call was already attempted). -/
def handle_control_action (hw : ClientHW) (autoMode : Bool) (action : String) :
    Bool × List Act :=
  if !hw.dogPresent then (false, [])
  else if !hw.hasImu ∧ action ∈ movementActions then (false, [])
  else if autoMode ∧ action ∉ (["bark", "aggressive_mode"] : List String) then
    (false, [])
  else if action ∈ movementActions then
    (!hw.doActionFails, [Act.doAction action])
  else if action = "bark" then
    if hw.hasSpeak then (!hw.speakFails, [Act.speakSound "bark"])
    else (false, [])
  else if action = "aggressive_mode" then
    let soundCalls : List Act :=
      if hw.hasSpeak then
        if hw.speakFails then [Act.speakSound "growl"]
        else [Act.speakSound "growl", Act.speakSound "bark"]
      else []
    let soundOk : Bool := hw.hasSpeak ∧ !hw.speakFails
    let rgbCalls : List Act := if hw.hasRgb then [Act.rgbSet "boom" "red"] else []
    let rgbOk : Bool := hw.hasRgb ∧ !hw.rgbFails
    (soundOk ∨ rgbOk, soundCalls ++ rgbCalls)
  else (false, [])

end ClientPy

open CloudServer

theorem dictGet_mem {α : Type} (m : List (String × α)) (k : String) (v : α)
    (h : dictGet m k = some v) : (k, v) ∈ m := by
  induction m with
  | nil => simp [dictGet] at h
  | cons p rest ih =>
    by_cases hp : p.1 = k
    · rw [dictGet, if_pos hp] at h
      obtain ⟨k', v'⟩ := p
      simp only [Option.some.injEq] at h
      simp only [List.mem_cons]
      exact Or.inl (by simp_all)
    · rw [dictGet, if_neg hp] at h
      exact List.mem_cons_of_mem _ (ih h)

/-- A `camera_frame` message exactly as the repository's own senders
(`pidog_client.camera_capture_thread`, `test_websocket.py`) build it: the
payload nested under `data`, no top-level `frame_data` or `timestamp` key. -/
def clientFrameMsg : WireMessage :=
  { blankMsg "camera_frame" with
      data_frame := some "qq==", data_frame_id := some 0, data_timestamp := some 1 }

/-- C1: the claim says a `camera_frame` in the documented envelope
`{type, data:{frame, frame_id, timestamp}}` leaves the frame bytes stored so
that `QueryLatestFrame` returns exactly those bytes.  On the code this fails:
`websocket_endpoint` reads the top-level `frame_data` key, which the envelope
does not carry, so `latest_frames[cid]["frame_data"]` is `None` and the
query endpoint's `bytes.fromhex(None)` raises, producing the 500 error —
never the sent bytes. -/
theorem C1_frame_envelope_code_bug :
    get_latest_frame
      (handleMessage emptyServer "robot-1" clientFrameMsg 2) "robot-1" =
      FrameQueryResult.err := by
  decide

/-- C2: after `disconnect`, both `QueryLatestFrame` and `QueryLatestDetection`
answer `NotFound`, and the status entry is gone as well — disconnect removes
the session's frame, detection, and status entries. -/
theorem C2_disconnect_notFound (st : ServerState) (cid : String) :
    get_latest_frame (disconnect st cid) cid = FrameQueryResult.notFound ∧
    get_latest_detection (disconnect st cid) cid = DetectionQueryResult.notFound ∧
    dictGet (disconnect st cid).client_status cid = none := by
  refine ⟨?_, ?_, ?_⟩ <;>
    simp [get_latest_frame, get_latest_detection, disconnect, dictGet_dictDel]

/-- C3: ingesting two `camera_frame` messages for the same session in order
leaves exactly the second message's frame entry stored — last write wins,
no queueing. -/
theorem C3_last_write_wins (st : ServerState) (cid : String)
    (m1 m2 : WireMessage) (t1 t2 : ℚ)
    (h1 : m1.type = "camera_frame") (h2 : m2.type = "camera_frame") :
    dictGet (handleMessage (handleMessage st cid m1 t1) cid m2 t2).latest_frames
        cid =
      some { frame_data := m2.frame_data, timestamp := m2.timestamp.getD t2 } := by
  simp [handleMessage, h1, h2, dictGet_dictSet]

/-- A server-format `camera_frame` message carrying hex `"dead"`. -/
def frameMsgA : WireMessage :=
  { blankMsg "camera_frame" with frame_data := some "dead" }

/-- A server-format `camera_frame` message carrying hex `"beef"`. -/
def frameMsgB : WireMessage :=
  { blankMsg "camera_frame" with frame_data := some "beef" }

/-- C3 witness: two concrete frames; only the second remains. -/
theorem C3_last_write_wins_witness :
    dictGet
      ((handleMessage (handleMessage emptyServer "c" frameMsgA 1) "c"
          frameMsgB 2).latest_frames)
      "c" = some { frame_data := some "beef", timestamp := 2 } :=
  C3_last_write_wins emptyServer "c" frameMsgA frameMsgB 1 2 rfl rfl

/-- C8: `send_message` returns `True` exactly when the session is present and
the channel write succeeds; the absent-session and failed-write cases yield
`False` (the function is total — no exception escapes). -/
theorem C8_send_message_spec (st : ServerState) (cid : String) :
    send_message st cid = true ↔
      ∃ ch, dictGet st.active_connections cid = some ch ∧ ch.sendOk = true := by
  unfold send_message
  cases h : dictGet st.active_connections cid with
  | none => simp
  | some ch =>
    cases hok : ch.sendOk <;> simp [hok]

/-- C9: `broadcast` records, for every session, the outcome of its own channel
write; a session whose channel works receives the message no matter which
other sessions fail. -/
theorem C9_broadcast_delivery (st : ServerState) (cid : String) (ch : Channel)
    (h : dictGet st.active_connections cid = some ch) :
    (cid, ch.sendOk) ∈ broadcast st := by
  have hmem := dictGet_mem _ _ _ h
  have hsend : send_message st cid = ch.sendOk := by
    cases hok : ch.sendOk <;> simp [send_message, h, hok]
  have hmap :=
    List.mem_map_of_mem (fun p => (p.1, send_message st p.1)) hmem
  simpa [broadcast, hsend] using hmap

/-- Three connected sessions, the middle one with a closed channel. -/
def threeSessions : ServerState :=
  { emptyServer with
      active_connections :=
        [("c1", { sendOk := true }), ("c2", { sendOk := false }),
         ("c3", { sendOk := true })] }

/-- C9 witness: with session 2's channel closed, sessions 1 and 3 still get
the message (and session 2's failure is recorded, not raised). -/
theorem C9_broadcast_delivery_witness :
    ("c1", true) ∈ broadcast threeSessions ∧
    ("c2", false) ∈ broadcast threeSessions ∧
    ("c3", true) ∈ broadcast threeSessions :=
  ⟨C9_broadcast_delivery threeSessions "c1" { sendOk := true } (by decide),
   C9_broadcast_delivery threeSessions "c2" { sendOk := false } (by decide),
   C9_broadcast_delivery threeSessions "c3" { sendOk := true } (by decide)⟩

/-- C10: with `auto_mode` on, `handle_control_action` refuses every action
other than `bark` and `aggressive_mode`: it returns `False` and attempts no
hardware call at all (in particular no `do_action`). -/
theorem C10_auto_mode_guard (hw : ClientPy.ClientHW) (action : String)
    (h : action ∉ (["bark", "aggressive_mode"] : List String)) :
    ClientPy.handle_control_action hw true action = (false, []) := by
  unfold ClientPy.handle_control_action
  split
  · rfl
  · split
    · rfl
    · rw [if_pos ⟨by simp, h⟩]

/-- C10 witness: a fully working robot in auto mode still refuses `forward`. -/
theorem C10_auto_mode_guard_witness :
    ClientPy.handle_control_action
      { dogPresent := true, hasImu := true, hasRgb := true, hasSpeak := true
        doActionFails := false, speakFails := false, rgbFails := false }
      true "forward" = (false, []) :=
  C10_auto_mode_guard _ "forward" (by decide)

/-- A stored frame whose hex payload decodes (`bytes.fromhex("ab")`). -/
def c4frame : FrameEntry := { frame_data := some "ab", timestamp := 99 }

/-- A detector outcome taking one second of inference. -/
def c4det : DetectorOutput :=
  { success := true, detections := [], inference_time := 1
    image_width := 640, image_height := 480 }

/-- Evaluation of the scheduler body at the concrete C4 tick. -/
theorem schedulerStep_c4_eval :
    schedulerStep 100 (some c4frame) true c4det none =
      (true, some { success := true, detections := [], inference_time := 1
                    image_width := 640, image_height := 480
                    timestamp := 100 }) := by
  have hgate : DETECTION_INTERVAL ≤ (100 : ℚ) - 0 := by
    norm_num [DETECTION_INTERVAL]
  rw [schedulerStep.eq_def]
  dsimp only
  rw [if_pos hgate]
  rw [show bytesFromHex c4frame.frame_data = some [171] from rfl]
  rfl

/-- C4 as stated, instantiated at a concrete tick: check time 100, no previous
detection, decodable frame, detector needing 1 s — so the detection completes
at time `100 + inference_time = 101`, and the claim asserts the stored result
carries that completion timestamp. -/
def ClaimC4At : Prop :=
  ((schedulerStep 100 (some c4frame) true c4det none).2.map
      DetectionResult.timestamp) = some (100 + c4det.inference_time)

/-- C4 counterexample: the scheduler runs the detection at that tick but stamps
the result with the time sampled at the gating check (100), not the completion
time (101): `detection_result["timestamp"] = current_time` where
`current_time` was read before `detect_persons` ran. -/
theorem C4_stamp_counterexample : ClaimC4At = False := by
  apply eq_false
  intro hcl
  rw [ClaimC4At, schedulerStep_c4_eval] at hcl
  simp only [Option.map_some', Option.some.injEq, c4det] at hcl
  norm_num at hcl

/-- C4 amended: on a tick where a detection is submitted, the gate
`now - latestDetection.timestamp >= DETECTION_INTERVAL` did hold (vacuously so
when no previous detection exists), and the stored result is the detector's
output stamped with the check-time `now` — not with its completion time. -/
theorem C4_gate_and_stamp (now : ℚ) (frame : Option FrameEntry) (decodes : Bool)
    (det : DetectorOutput) (prev : Option DetectionResult)
    (h : (schedulerStep now frame decodes det prev).1 = true) :
    (∀ d, prev = some d → DETECTION_INTERVAL ≤ now - d.timestamp) ∧
    (schedulerStep now frame decodes det prev).2 =
      some { success := det.success, detections := det.detections
             inference_time := det.inference_time
             image_width := det.image_width, image_height := det.image_height
             timestamp := now } := by
  cases frame with
  | none => simp [schedulerStep] at h
  | some fe =>
    rw [schedulerStep.eq_def] at h ⊢
    dsimp only at h ⊢
    split at h
    case isTrue hgate =>
      refine ⟨?_, ?_⟩
      · intro d hd
        subst hd
        exact hgate
      · rw [if_pos hgate]
        cases hx : bytesFromHex fe.frame_data with
        | none => rw [hx] at h; simp at h
        | some bs =>
          rw [hx] at h
          cases decodes with
          | false => simp at h
          | true => rfl
    case isFalse hgate =>
      simp at h

/-- C4 witness: the concrete tick of the counterexample, through the amended
theorem: the stored result carries the check time 100. -/
theorem C4_gate_and_stamp_witness :
    (schedulerStep 100 (some c4frame) true c4det none).2 =
      some { success := true, detections := [], inference_time := 1
             image_width := 640, image_height := 480, timestamp := 100 } :=
  (C4_gate_and_stamp 100 (some c4frame) true c4det none
    (by rw [schedulerStep_c4_eval])).2

/-- The spec's sample reading sequence for distance filtering. -/
def specSamples : List (Option ℚ) :=
  [some (-5), some 1500, some 42, some 45, some 44]

/-- Evaluation: with the default 3 attempts only the first three samples are
read, of which only 42 survives the filter, so the mean is 42. -/
theorem tracker_distance_three_eval :
    Tracker.get_reliable_distance specSamples 3 0 1000 = some 42 := by
  have hk : Tracker.keepValid 0 1000 (specSamples.take 3) = [42] := by
    norm_num [specSamples, Tracker.keepValid]
  rw [Tracker.get_reliable_distance, hk]
  norm_num [Tracker.round2, round_eq]

/-- Evaluation: with 5 attempts the readings 42, 45, 44 survive and the
two-decimal-rounded mean is 43.67. -/
theorem tracker_distance_five_eval :
    Tracker.get_reliable_distance specSamples 5 0 1000 = some (4367 / 100) := by
  have hk : Tracker.keepValid 0 1000 (specSamples.take 5) = [42, 45, 44] := by
    norm_num [specSamples, Tracker.keepValid]
  rw [Tracker.get_reliable_distance, hk]
  norm_num [Tracker.round2, round_eq]

/-- Evaluation: the client-side variant accepts a zero reading
(`value >= valid_range[0]`) and returns 0 — it does not treat 0 as invalid. -/
theorem client_distance_zero_eval :
    ClientPy.get_reliable_distance true [some 0, some 1000] 3 0 1000 =
      some 0 := by
  have hk : ClientPy.keepValidGe 0 1000 ([some 0, some 1000].take 3) = [0] := by
    norm_num [ClientPy.keepValidGe]
  rw [ClientPy.get_reliable_distance, hk]
  norm_num [Tracker.round2, round_eq]

/-- C5 as stated, instantiated: (a) a lone zero reading must be rejected, so
the computation must answer `None`; (b) the spec's sequence with `N = 3` must
average to 43.67. -/
def ClaimC5At : Prop :=
  ClientPy.get_reliable_distance true [some 0] 3 0 1000 = none ∧
  Tracker.get_reliable_distance specSamples 3 0 1000 = some (4367 / 100)

/-- C5 counterexample: the client variant accepts the zero reading and returns
0 (its guard is `value >= 0`, not `value > 0`), and three attempts consume
only the first three samples `[-5, 1500, 42]`, so the result is 42, not 43.67
(the example needs `max_attempts = 5`). -/
theorem C5_distance_counterexample : ClaimC5At = False := by
  apply eq_false
  rintro ⟨h0, h3⟩
  have e0 : ClientPy.get_reliable_distance true [some 0] 3 0 1000 = some 0 := by
    have hk : ClientPy.keepValidGe 0 1000 ([some 0].take 3) = [0] := by
      norm_num [ClientPy.keepValidGe]
    rw [ClientPy.get_reliable_distance, hk]
    norm_num [Tracker.round2, round_eq]
  rw [e0] at h0
  exact Option.some_ne_none 0 h0

/-- C5 amended: the tracker variant accepts a sample iff it lies strictly
inside `(0, 1000)` — in particular any all-invalid stream yields `None`, never
a default 0 — while the client variant also accepts 0; each call makes
`max_attempts` sensor reads (default 3) and averages the accepted ones rounded
to two decimals, so the spec's sequence yields 43.67 only with 5 attempts and
yields 42 with the default 3. -/
theorem C5_distance_filtering (samples : List (Option ℚ)) (n : ℕ)
    (hinv : ∀ x : ℚ, some x ∈ samples → x ≤ 0 ∨ 1000 ≤ x) :
    Tracker.get_reliable_distance samples n 0 1000 = none ∧
    Tracker.get_reliable_distance specSamples 5 0 1000 = some (4367 / 100) ∧
    Tracker.get_reliable_distance specSamples 3 0 1000 = some 42 ∧
    ClientPy.get_reliable_distance true [some 0, some 1000] 3 0 1000 =
      some 0 := by
  refine ⟨?_, tracker_distance_five_eval, tracker_distance_three_eval,
    client_distance_zero_eval⟩
  have hnil : ∀ l : List (Option ℚ),
      (∀ x : ℚ, some x ∈ l → x ≤ 0 ∨ 1000 ≤ x) →
      Tracker.keepValid 0 1000 l = [] := by
    intro l
    induction l with
    | nil => intro _; rfl
    | cons v? rest ih =>
      intro hall
      cases v? with
      | none =>
        exact (Tracker.keepValid.eq_def _ _ _).trans
          (ih fun x hx => hall x (List.mem_cons_of_mem _ hx))
      | some x =>
        rw [Tracker.keepValid]
        have hrest := ih fun y hy => hall y (List.mem_cons_of_mem _ hy)
        rcases hall x (List.mem_cons_self _ _) with hle | hge
        · rw [if_neg (by rintro ⟨hlt, -⟩; exact absurd hle (not_le.mpr hlt))]
          exact hrest
        · rw [if_neg (by rintro ⟨-, hlt⟩; exact absurd hge (not_le.mpr hlt))]
          exact hrest
  rw [Tracker.get_reliable_distance,
    hnil _ (fun x hx => hinv x (List.take_subset n samples hx))]
  rfl

/-- C5 witness: a stream of only invalid readings (negative and ≥ 1000)
yields `None`. -/
theorem C5_distance_filtering_witness :
    Tracker.get_reliable_distance [some (-5), some 1000] 2 0 1000 = none :=
  (C5_distance_filtering [some (-5), some 1000] 2 (by
    intro x hx
    simp only [List.mem_cons, List.not_mem_nil, or_false,
      Option.some.injEq] at hx
    rcases hx with rfl | rfl
    · exact Or.inl (by norm_num)
    · exact Or.inr le_rfl)).1

/-- A degenerate detection whose box has zero width (`x1 = x2`), hence zero
area. -/
def zeroAreaDet : Detection :=
  { class_id := 0, class_name := "person", confidence := 9 / 10
    bbox := { x1 := 3, y1 := 4, x2 := 3, y2 := 9, width := 0, height := 5
              center_x := 3, center_y := 6 } }

/-- C7 as stated, instantiated: a successful result containing exactly one
detection must make that detection the current target, i.e. set
`largest_person_bbox` to its box. -/
def ClaimC7At : Prop :=
  (Tracker.process_detection_results
      (some { success := true, detections := [zeroAreaDet] })
      Tracker.initVars).largest_person_bbox = some (3, 4, 3, 9)

/-- C7 counterexample: the selection loop starts from `largest_area = 0` and
only replaces on strict `>`, so a zero-area detection is never selected:
`largest_person_bbox` stays `None` even though the result was successful and
nonempty. -/
theorem C7_zero_area_counterexample : ClaimC7At = False := by
  apply eq_false
  intro hcl
  rw [ClaimC7At] at hcl
  have he : (Tracker.process_detection_results
      (some { success := true, detections := [zeroAreaDet] })
      Tracker.initVars).largest_person_bbox = none := rfl
  rw [he] at hcl
  exact Option.noConfusion hcl

theorem selBest_of_all_le (dets : List Detection) (a : ℤ)
    (b : Option Detection) (h : ∀ e ∈ dets, Tracker.detArea e ≤ a) :
    Tracker.selBest dets a b = b := by
  induction dets generalizing a b with
  | nil => rfl
  | cons d rest ih =>
    rw [Tracker.selBest]
    rw [if_neg (not_lt.mpr (h d (List.mem_cons_self _ _)))]
    exact ih a b fun e he => h e (List.mem_cons_of_mem _ he)

/-- The selection loop returns the first detection attaining the maximum area,
provided some detection's area exceeds the starting threshold `a`. -/
theorem selBest_spec (dets : List Detection) (a : ℤ) (b : Option Detection)
    (h : ∃ e ∈ dets, a < Tracker.detArea e) :
    ∃ d l₁ l₂, Tracker.selBest dets a b = some d ∧ dets = l₁ ++ d :: l₂ ∧
      a < Tracker.detArea d ∧
      (∀ e ∈ l₁, Tracker.detArea e < Tracker.detArea d) ∧
      (∀ e ∈ dets, Tracker.detArea e ≤ Tracker.detArea d) := by
  induction dets generalizing a b with
  | nil => obtain ⟨e, he, -⟩ := h; exact absurd he (List.not_mem_nil e)
  | cons d rest ih =>
    by_cases hda : a < Tracker.detArea d
    · by_cases hrest : ∃ e ∈ rest, Tracker.detArea d < Tracker.detArea e
      · obtain ⟨d', l₁', l₂', hsel, hsplit, hgt, hl₁, hall⟩ :=
          ih (Tracker.detArea d) (some d) hrest
        refine ⟨d', d :: l₁', l₂', ?_, by rw [hsplit]; rfl,
          lt_trans hda hgt, ?_, ?_⟩
        · rw [Tracker.selBest, if_pos hda]; exact hsel
        · intro e he
          rcases List.mem_cons.mp he with rfl | he'
          · exact hgt
          · exact hl₁ e he'
        · intro e he
          rcases List.mem_cons.mp he with rfl | he'
          · exact le_of_lt hgt
          · exact hall e he'
      · push_neg at hrest
        refine ⟨d, [], rest, ?_, rfl, hda, by simp, ?_⟩
        · rw [Tracker.selBest, if_pos hda]
          exact selBest_of_all_le rest (Tracker.detArea d) (some d) hrest
        · intro e he
          rcases List.mem_cons.mp he with rfl | he'
          · exact le_refl _
          · exact hrest e he'
    · have hrest : ∃ e ∈ rest, a < Tracker.detArea e := by
        obtain ⟨e, he, hae⟩ := h
        rcases List.mem_cons.mp he with rfl | he'
        · exact absurd hae hda
        · exact ⟨e, he', hae⟩
      obtain ⟨d', l₁', l₂', hsel, hsplit, hgt, hl₁, hall⟩ := ih a b hrest
      refine ⟨d', d :: l₁', l₂', ?_, by rw [hsplit]; rfl, hgt, ?_, ?_⟩
      · rw [Tracker.selBest, if_neg hda]
        exact hsel
      · intro e he
        rcases List.mem_cons.mp he with rfl | he'
        · exact lt_of_le_of_lt (not_lt.mp hda) hgt
        · exact hl₁ e he'
      · intro e he
        rcases List.mem_cons.mp he with rfl | he'
        · exact le_of_lt (lt_of_le_of_lt (not_lt.mp hda) hgt)
        · exact hall e he'

/-- C7 amended: on a successful result, provided some detection has positive
box area, the target becomes the detection of maximal area, ties keeping the
first one encountered (every strictly earlier detection has strictly smaller
area); the persistence counter resets and the confidence is recorded.  (When
every detection has area ≤ 0, no target is selected at all — the loop never
leaves its `largest_detection = None` start.) -/
theorem C7_largest_first_target (dets : List Detection) (v : Tracker.TrackVars)
    (h : ∃ e ∈ dets, 0 < Tracker.detArea e) :
    ∃ d l₁ l₂, dets = l₁ ++ d :: l₂ ∧
      (∀ e ∈ l₁, Tracker.detArea e < Tracker.detArea d) ∧
      (∀ e ∈ dets, Tracker.detArea e ≤ Tracker.detArea d) ∧
      Tracker.process_detection_results
          (some { success := true, detections := dets }) v =
        { current_detections := dets
          largest_person_bbox := some (d.bbox.x1, d.bbox.y1, d.bbox.x2, d.bbox.y2)
          last_detection_confidence := d.confidence
          frames_since_last_detection := 0 } := by
  obtain ⟨d, l₁, l₂, hsel, hsplit, hgt, hl₁, hall⟩ := selBest_spec dets 0 none h
  refine ⟨d, l₁, l₂, hsplit, hl₁, hall, ?_⟩
  have hne : dets.isEmpty = false := by
    rw [hsplit]
    cases l₁ <;> rfl
  rw [Tracker.process_detection_results]
  simp only [Bool.not_true, Bool.false_eq_true, if_false, hne,
    Tracker.selectLargest, hsel]

/-- C7 witness: a two-detection result where the larger box comes second. -/
theorem C7_largest_first_target_witness :
    ∃ d l₁ l₂,
      [zeroAreaDet,
        { zeroAreaDet with bbox := { zeroAreaDet.bbox with x2 := 5, width := 2 } }] =
        l₁ ++ d :: l₂ ∧
      (∀ e ∈ l₁, Tracker.detArea e < Tracker.detArea d) ∧
      (∀ e ∈ [zeroAreaDet,
        { zeroAreaDet with bbox := { zeroAreaDet.bbox with x2 := 5, width := 2 } }],
          Tracker.detArea e ≤ Tracker.detArea d) ∧
      Tracker.process_detection_results
          (some { success := true
                  detections := [zeroAreaDet,
                    { zeroAreaDet with
                        bbox := { zeroAreaDet.bbox with x2 := 5, width := 2 } }] })
          Tracker.initVars =
        { current_detections := [zeroAreaDet,
            { zeroAreaDet with bbox := { zeroAreaDet.bbox with x2 := 5, width := 2 } }]
          largest_person_bbox := some (d.bbox.x1, d.bbox.y1, d.bbox.x2, d.bbox.y2)
          last_detection_confidence := d.confidence
          frames_since_last_detection := 0 } :=
  C7_largest_first_target _ Tracker.initVars
    ⟨{ zeroAreaDet with bbox := { zeroAreaDet.bbox with x2 := 5, width := 2 } },
      by simp, by norm_num [Tracker.detArea, zeroAreaDet]⟩

/-- At distance 10 the pursuit branch `15 < d` fails, so no bark (indeed no
movement either) can be issued, whatever the timer state. -/
theorem autoStep_ten_no_bark (now lastMove : ℚ) (hasImu : Bool) (cx w : ℚ) :
    Act.speakSound "bark" ∉
      (Tracker.autoStep now lastMove hasImu cx w (some 10)).1 := by
  have hp : ¬((10 : ℚ) < Tracker.PURSUE_DISTANCE ∧ (10 : ℚ) > 15) := by
    rintro ⟨-, h15⟩
    norm_num at h15
  rw [Tracker.autoStep.eq_def]
  dsimp only
  by_cases hg : now - lastMove > 3 / 2
  · rw [if_pos hg, if_neg hp]
    cases hasImu <;> simp
  · rw [if_neg hg]
    cases hasImu <;> simp

theorem runBarksAtTen_zero (n : ℕ) :
    ∀ now lastMove : ℚ, Tracker.runBarksAtTen n now lastMove = 0 := by
  induction n with
  | zero => intro _ _; rfl
  | succ k ih =>
    intro now lastMove
    rw [Tracker.runBarksAtTen]
    rw [if_neg (autoStep_ten_no_bark now lastMove true 320 640)]
    rw [ih]

theorem barkCountAtTen_zero (n : ℕ) : Tracker.barkCountAtTen n = 0 :=
  runBarksAtTen_zero n 0 0

/-- C6 as stated: for some positive `BARK_INTERVAL` value `B`, a continuous
target held at distance 10 for `T = n / FPS_TARGET` seconds yields
`⌊T / (B / 3)⌋ ± 1` bark calls (intensity 3 at close range). -/
def ClaimC6 : Prop :=
  ∃ B : ℚ, 0 < B ∧ ∀ n : ℕ,
    ⌊((n : ℚ) / Tracker.FPS_TARGET) / (B / 3)⌋ - 1 ≤
        (Tracker.barkCountAtTen n : ℤ) ∧
      (Tracker.barkCountAtTen n : ℤ) ≤
        ⌊((n : ℚ) / Tracker.FPS_TARGET) / (B / 3)⌋ + 1

/-- C6 counterexample: the code has no bark timer at all (`BARK_INTERVAL` and
`lastBarkTime` exist nowhere), and at distance 10 the tracker's pursuit branch
requires `d > 15`, so the bark count stays 0 forever; for any candidate `B`,
holding the target long enough makes the claimed lower bound exceed 0. -/
theorem C6_bark_timer_counterexample : ClaimC6 = False := by
  apply eq_false
  rintro ⟨B, hB, h⟩
  obtain ⟨n, hn⟩ := exists_nat_ge (10 * B / 3)
  have hcount : (Tracker.barkCountAtTen n : ℤ) = 0 := by
    rw [barkCountAtTen_zero]
    rfl
  have hfast : (2 : ℚ) ≤ ((n : ℚ) / Tracker.FPS_TARGET) / (B / 3) := by
    rw [le_div_iff₀ (by positivity : (0 : ℚ) < B / 3), Tracker.FPS_TARGET]
    linarith [hn]
  have hfl : (2 : ℤ) ≤ ⌊((n : ℚ) / Tracker.FPS_TARGET) / (B / 3)⌋ :=
    Int.le_floor.mpr (by exact_mod_cast hfast)
  have hlow := (h n).1
  rw [hcount] at hlow
  omega

/-- C6 amended: in the tracker's auto loop a bark is gated only by the shared
movement timer (`now - last_movement_time > 1.5`) together with the pursuit
window `15 < d < PURSUE_DISTANCE` and the bark range `d < BARK_DISTANCE`;
there is no separate bark timer and no intensity scaling, and a continuous
target held at distance 10 — below the 15 cm pursuit minimum — produces zero
bark calls however long it is held. -/
theorem C6_bark_gating (now lastMove cx w d : ℚ) (n : ℕ)
    (hmem : Act.speakSound "bark" ∈
      (Tracker.autoStep now lastMove true cx w (some d)).1) :
    (now - lastMove > 3 / 2 ∧ 15 < d ∧ d < Tracker.PURSUE_DISTANCE ∧
      d < Tracker.BARK_DISTANCE) ∧
    Tracker.barkCountAtTen n = 0 := by
  refine ⟨?_, barkCountAtTen_zero n⟩
  rw [Tracker.autoStep.eq_def] at hmem
  dsimp only at hmem
  by_cases hg : now - lastMove > 3 / 2
  · rw [if_pos hg] at hmem
    by_cases hp : d < Tracker.PURSUE_DISTANCE ∧ d > 15
    · rw [if_pos hp] at hmem
      by_cases hb : d < Tracker.BARK_DISTANCE
      · exact ⟨hg, hp.2, hp.1, hb⟩
      · exfalso
        rw [if_neg hb] at hmem
        by_cases hy : |cx / w * 120 - 60| > 20
        · rw [if_pos hy] at hmem
          by_cases hy2 : cx / w * 120 - 60 > 0
          · rw [if_pos hy2] at hmem
            simp at hmem
          · rw [if_neg hy2] at hmem
            simp at hmem
        · rw [if_neg hy] at hmem
          simp at hmem
    · rw [if_neg hp] at hmem
      simp at hmem
  · rw [if_neg hg] at hmem
    simp at hmem

/-- Evaluation of the tracker auto step at time 2, timer clear, centred
target at 50 cm: head tracking, forward pursuit, and a bark. -/
theorem autoStep_fifty_eval :
    Tracker.autoStep 2 0 true 320 640 (some 50) =
      ([Act.headMove 0, Act.doAction "forward", Act.speakSound "bark"], 2) := by
  have hy0 : (320 : ℚ) / 640 * 120 - 60 = 0 := by norm_num
  rw [Tracker.autoStep.eq_def]
  dsimp only
  rw [hy0]
  rw [if_pos (by norm_num : (2 : ℚ) - 0 > 3 / 2)]
  rw [if_pos (⟨by norm_num [Tracker.PURSUE_DISTANCE], by norm_num⟩ :
    (50 : ℚ) < Tracker.PURSUE_DISTANCE ∧ (50 : ℚ) > 15)]
  rw [if_neg (by rw [abs_zero]; norm_num : ¬(|(0 : ℚ)| > 20))]
  rw [if_pos (by norm_num [Tracker.BARK_DISTANCE] :
    (50 : ℚ) < Tracker.BARK_DISTANCE)]
  rfl

/-- C6 witness: a bark issued at a 50 cm target two seconds into the run
satisfies exactly the movement-timer/pursuit/bark-range gates, and four ticks
at distance 10 produce zero barks. -/
theorem C6_bark_gating_witness :
    ((2 : ℚ) - 0 > 3 / 2 ∧ 15 < (50 : ℚ) ∧
      (50 : ℚ) < Tracker.PURSUE_DISTANCE ∧
      (50 : ℚ) < Tracker.BARK_DISTANCE) ∧
    Tracker.barkCountAtTen 4 = 0 :=
  C6_bark_gating 2 0 320 640 50 4 (by rw [autoStep_fifty_eval]; simp)
